import Mathlib

/-!
Verification development for the terminal process-monitor dashboard
(two source variants: `system_monitor.py` and `another_monitor.py`).

The Python code is shallowly embedded: floats become rationals (all
quantities reaching the formatting and comparison paths in the claims
are exact dyadic values, where binary floats and rationals agree),
machine integers become naturals, fallible drawing and parsing become
`Except`/`Option`, and the curses surface is modelled by its bounds.
Definitions are named after the Python functions they embed.

Rational arithmetic inside the embedded code uses the executable
wrappers `ratMul`, `ratDiv`, `ratSub` (cross-multiplied fractions fed
to `Rat.divInt`), proved equal to `*`, `/`, `-` below, so that every
embedded function evaluates on concrete inputs by `decide`.
-/

namespace Monitor

/-- Executable rational multiplication: numerators and denominators
cross-multiplied and renormalized. Equal to `*` (`ratMul_eq`). -/
def ratMul (a b : ℚ) : ℚ := Rat.divInt (a.num * b.num) ((a.den : ℤ) * (b.den : ℤ))

/-- Executable rational division. Equal to `/` (`ratDiv_eq`). -/
def ratDiv (a b : ℚ) : ℚ := Rat.divInt (a.num * (b.den : ℤ)) ((a.den : ℤ) * b.num)

/-- Executable rational subtraction. Equal to `-` (`ratSub_eq`). -/
def ratSub (a b : ℚ) : ℚ :=
  Rat.divInt (a.num * (b.den : ℤ) - b.num * (a.den : ℤ)) ((a.den : ℤ) * (b.den : ℤ))

/-- Python exceptions that the embedded fragments can raise. -/
inductive PyErr where
  | cursesError
  | valueError
deriving DecidableEq, Repr

/-- Truncation toward zero, the semantics of Python `int()` applied to a
float value (Lean `Int` division is T-division, truncation toward zero). -/
def pyIntTrunc (q : ℚ) : ℤ := q.num / q.den

/-- Floor of a rational via floor division of numerator by denominator. -/
def ratFloor (q : ℚ) : ℤ := Int.fdiv q.num q.den

/-- Round to the nearest integer, ties to even — the rounding used by
Python `format(x, ".2f")` on exactly representable values. -/
def roundHalfEven (q : ℚ) : ℤ :=
  let f : ℤ := ratFloor q
  let r : ℚ := ratSub q (f : ℚ)
  if r < mkRat 1 2 then f
  else if mkRat 1 2 < r then f + 1
  else if f % 2 = 0 then f else f + 1

/-- Render a nonnegative count of hundredths as a two-decimal string. -/
def fmtTwoDecNat (n : ℕ) : String :=
  let whole := n / 100
  let frac := n % 100
  toString whole ++ "." ++ (if frac < 10 then "0" else "") ++ toString frac

/-- Embedding of the Python format spec `.2f`: round the value to two
decimal places (ties to even) and print with exactly two fraction digits. -/
def formatTwoDec (q : ℚ) : String :=
  let n := roundHalfEven (ratMul q 100)
  if n < 0 then "-" ++ fmtTwoDecNat (-n).toNat else fmtTwoDecNat n.toNat

/-- Loop body of `get_size`: walk the unit list, dividing by 1024, and
return the formatted string at the first unit where the value is below
1024; falling off the end returns `none` (Python falls off the `for`
loop and implicitly returns `None`). -/
def get_size_aux : List String → ℚ → Option String
  | [], _ => none
  | u :: us, b =>
    if b < 1024 then some (formatTwoDec b ++ u ++ "B") else get_size_aux us (ratDiv b 1024)

/-- Embedding of `get_size(bytes, suffix="B")` from both source files:
scale by 1024 over units `["", "K", "M", "G", "T", "P"]`, appending the
suffix `"B"` after the selected unit letter. -/
def get_size (b : ℚ) : Option String :=
  get_size_aux ["", "K", "M", "G", "T", "P"] b

/-- Python `str()` of a `get_size` result as it appears inside an
f-string: the string itself, or the literal text `"None"` when the
unit loop was exhausted. -/
def strOfSize (b : ℚ) : String := (get_size b).getD "None"

/-- Severity classification of a process row by CPU percent, as the
spec names the three-way color split. -/
inductive Severity where
  | LOW
  | MODERATE
  | HIGH
deriving DecidableEq, Repr

/-- Spec-level severity: HIGH above 80, MODERATE above 40, else LOW. -/
def severity (cpu : ℚ) : Severity :=
  if 80 < cpu then .HIGH else if 40 < cpu then .MODERATE else .LOW

/-- Embedding of the color-pair choice in `monitor_processes` (both
variants): pair 1 when `cpu_percent > 80`, pair 2 when `> 40`, else
pair 3. -/
def colorPair (cpu : ℚ) : ℕ :=
  if 80 < cpu then 1 else if 40 < cpu then 2 else 3

/-- One per-process record as enumerated by the metrics provider;
`io` is `none` when the process exposes no I/O counters. -/
structure ProcSample where
  pid : ℕ
  name : String
  cpu : ℚ
  memBytes : ℕ
  io : Option (ℕ × ℕ)
deriving DecidableEq, Repr

/-- `io_counters.read_bytes if io_counters else 0`. -/
def readBytes (p : ProcSample) : ℕ := (p.io.map Prod.fst).getD 0

/-- `io_counters.write_bytes if io_counters else 0`. -/
def writeBytes (p : ProcSample) : ℕ := (p.io.map Prod.snd).getD 0

/-- Embedding of `get_total_disk_io` (`system_monitor.py`): sum of
read+write bytes over the processes whose counters are readable;
unreadable ones are skipped, contributing nothing. -/
def get_total_disk_io (ps : List ProcSample) : ℕ :=
  ps.foldl (fun acc p => acc + (p.io.map (fun c => c.1 + c.2)).getD 0) 0

/-- The guarded I/O-share computation of `get_processes_info`
(`system_monitor.py` line 43):
`(process_io / total_io * 100) if total_io > 0 else 0`. -/
def sm_percent_usage (process_io total_io : ℕ) : ℚ :=
  if 0 < total_io then ratMul (ratDiv (process_io : ℚ) (total_io : ℚ)) 100 else 0

/-- Lexicographic comparison of character lists by code point. -/
def charListLt : List Char → List Char → Bool
  | [], [] => false
  | [], _ :: _ => true
  | _ :: _, [] => false
  | a :: as, b :: bs => if a < b then true else if b < a then false else charListLt as bs

/-- Python string `<`: lexicographic comparison by Unicode code point. -/
def pyStrLt (a b : String) : Bool := charListLt a.data b.data

/-- Stable insertion into a sorted list: the new element goes before the
first element it compares `le` to, so among tied keys the earlier
original element stays first. -/
def insertLe (le : α → α → Bool) (a : α) : List α → List α
  | [] => [a]
  | b :: bs => if le a b then a :: b :: bs else b :: insertLe le a bs

/-- Stable sort matching Python `sorted(xs, key=k, reverse=r)` when `le`
is the (total) key comparison in the requested direction with ties
accepted: equal keys keep their original relative order. -/
def pySorted (le : α → α → Bool) : List α → List α
  | [] => []
  | a :: as => insertLe le a (pySorted le as)

/-- Python `name or "Unknown"`: the empty/absent name is replaced. -/
def nameOrUnknown (s : String) : String := if s = "" then "Unknown" else s

/-- One tuple appended by `get_processes_info` in `system_monitor.py`:
`(pid, name, cpu_percent, memory_usage, disk_usage, process_io)` where
`memory_usage` is the possibly-`None` humanized rss and `disk_usage` is
the formatted string `"R: .. W: .. | %: ..%"`. -/
structure SMRow where
  pid : ℕ
  name : String
  cpu : ℚ
  memory_usage : Option String
  disk_usage : String
  process_io : ℕ
deriving DecidableEq, Repr

/-- Row construction in `get_processes_info` of `system_monitor.py`. -/
def sm_row (total_io : ℕ) (p : ProcSample) : SMRow :=
  let read := readBytes p
  let write := writeBytes p
  let pio := read + write
  { pid := p.pid
    name := nameOrUnknown p.name
    cpu := p.cpu
    memory_usage := get_size (p.memBytes : ℚ)
    disk_usage :=
      "R: " ++ strOfSize (read : ℚ) ++ " W: " ++ strOfSize (write : ℚ) ++
        " | %: " ++ formatTwoDec (sm_percent_usage pio total_io) ++ "%"
    process_io := pio }

/-- Sort predicate for `system_monitor.py`: key index 2 (`cpu_percent`)
for `sort_by == "cpu"`, otherwise key index 4 — which in that tuple is
the formatted `disk_usage` string, compared lexicographically; the
direction comes from `reverse=not ascending`. -/
def smKeyLe (sort_by : String) (ascending : Bool) (a b : SMRow) : Bool :=
  if sort_by = "cpu" then
    if ascending then !(decide (b.cpu < a.cpu)) else !(decide (a.cpu < b.cpu))
  else
    if ascending then !(pyStrLt b.disk_usage a.disk_usage)
    else !(pyStrLt a.disk_usage b.disk_usage)

/-- Embedding of `get_processes_info(sort_by, ascending)` from
`system_monitor.py`: build the rows with the system-wide I/O total,
then stably sort by the selected tuple index. -/
def sm_get_processes_info (sort_by : String) (ascending : Bool)
    (ps : List ProcSample) : List SMRow :=
  let total := get_total_disk_io ps
  pySorted (smKeyLe sort_by ascending) (ps.map (sm_row total))

/-- One tuple appended by `get_processes_info` in `another_monitor.py`:
`(pid, name, cpu_percent, memory_usage, memory_percent, disk_usage,
disk_bytes)` with `memory_percent` the raw rss byte count. -/
structure AMRow where
  pid : ℕ
  name : String
  cpu : ℚ
  memory_usage : Option String
  memory_percent : ℕ
  disk_usage : Option String
  disk_bytes : ℕ
deriving DecidableEq, Repr

/-- Row construction in `get_processes_info` of `another_monitor.py`. -/
def am_row (p : ProcSample) : AMRow :=
  { pid := p.pid
    name := nameOrUnknown p.name
    cpu := p.cpu
    memory_usage := get_size (p.memBytes : ℚ)
    memory_percent := p.memBytes
    disk_usage :=
      match p.io with
      | some c => get_size ((c.1 + c.2 : ℕ) : ℚ)
      | none => some "0B"
    disk_bytes := (p.io.map (fun c => c.1 + c.2)).getD 0 }

/-- Sort predicate for `another_monitor.py`: key index 2 (`cpu_percent`)
for `"cpu"`, otherwise key index 4 — the raw `memory_percent` bytes. -/
def amKeyLe (sort_by : String) (ascending : Bool) (a b : AMRow) : Bool :=
  if sort_by = "cpu" then
    if ascending then !(decide (b.cpu < a.cpu)) else !(decide (a.cpu < b.cpu))
  else
    if ascending then !(decide (b.memory_percent < a.memory_percent))
    else !(decide (a.memory_percent < b.memory_percent))

/-- Embedding of `get_processes_info(sort_by, ascending)` from
`another_monitor.py`. -/
def am_get_processes_info (sort_by : String) (ascending : Bool)
    (ps : List ProcSample) : List AMRow :=
  pySorted (amKeyLe sort_by ascending) (ps.map am_row)

/-- Python `"|" * n` for a possibly negative length: negative repeat
counts yield the empty string. -/
def pyRepeatBar (n : ℤ) : String := String.mk (List.replicate n.toNat '|')

/-- Python `f"{s:<{n}}"` left-justification padding to width `n`. -/
def padRight (s : String) (n : ℕ) : String :=
  s ++ String.mk (List.replicate (n - s.length) ' ')

/-- Embedding of `curses` `window.addstr(y, x, text)` on a terminal of
`height` rows and `width` columns: a draw whose start position lies
outside the window raises `curses.error`. -/
def addstr (height width y x : ℕ) (_text : String) : Except PyErr Unit :=
  if y < height && x < width then .ok () else .error .cursesError

/-- Embedding of `display_bar(stdscr, usage, label, y, width, max_value)`
from `system_monitor.py` (with `max_value=100` this is also the
`another_monitor.py` variant): compute
`bar_length = min(int((usage / max_value) * (width - 20)), width - 20)`,
build the `"|"`-bar, then issue one unguarded `addstr` at row `y`,
column 0. The f-string pad width `width - 20` raises `ValueError`
when negative, before the draw; the `addstr` itself raises
`curses.error` when the target row is outside the terminal. No
exception handler surrounds either. -/
def display_bar (height width : ℕ) (usage : ℚ) (label : String) (y : ℕ)
    (max_value : ℚ := 100) : Except PyErr Unit :=
  let innerW : ℤ := (width : ℤ) - 20
  let bar_length : ℤ := min (pyIntTrunc (ratMul (ratDiv usage max_value) (innerW : ℚ))) innerW
  let bar := pyRepeatBar bar_length
  if innerW < 0 then .error .valueError
  else
    addstr height width y 0
      (label ++ ": [" ++ padRight bar innerW.toNat ++ "] " ++ formatTwoDec usage ++ "%")

/-- Outcome of the process-control collaborator `Process(pid).terminate()`. -/
inductive KillOutcome where
  | terminated
  | noSuchProcess
  | accessDenied
deriving DecidableEq, Repr

/-- Accumulate a decimal digit sequence; any non-digit fails. -/
def digitsToNat : List Char → ℕ → Option ℕ
  | [], acc => some acc
  | c :: cs, acc =>
    if c.isDigit then digitsToNat cs (acc * 10 + (c.toNat - 48)) else none

/-- Parse an optionally signed, nonempty digit sequence. -/
def pyIntCore : List Char → Option ℤ
  | [] => none
  | '-' :: cs =>
    match cs with
    | [] => none
    | _ :: _ => (digitsToNat cs 0).map (fun n => -(n : ℤ))
  | '+' :: cs =>
    match cs with
    | [] => none
    | _ :: _ => (digitsToNat cs 0).map (fun n => (n : ℤ))
  | cs => (digitsToNat cs 0).map (fun n => (n : ℤ))

/-- Python `int(s)` on a string: optional surrounding whitespace, an
optional sign, then decimal digits; anything else raises `ValueError`
(modelled as `none`). -/
def pyInt (s : String) : Option ℤ :=
  pyIntCore
    (((s.data.dropWhile Char.isWhitespace).reverse.dropWhile Char.isWhitespace).reverse)

/-- Decidable equality for `Except` results, by cases. -/
instance {ε α : Type} [DecidableEq ε] [DecidableEq α] : DecidableEq (Except ε α) := fun a b =>
  match a, b with
  | .error e, .error f =>
    match decEq e f with
    | isTrue h => isTrue (by rw [h])
    | isFalse h => isFalse (by intro hh; cases hh; exact h rfl)
  | .error _, .ok _ => isFalse (by intro hh; cases hh)
  | .ok _, .error _ => isFalse (by intro hh; cases hh)
  | .ok x, .ok y =>
    match decEq x y with
    | isTrue h => isTrue (by rw [h])
    | isFalse h => isFalse (by intro hh; cases hh; exact h rfl)

/-- Embedding of the `k` (kill) branch of `monitor_processes` in
`system_monitor.py` (lines 196-200): `int(kill_pid)` is evaluated
inside a `try` that catches only `psutil.NoSuchProcess` and
`psutil.AccessDenied` (the enclosing handler catches only
`curses.error`), so a non-numeric string escapes as `ValueError`;
both catchable failures produce the same "Failed to terminate"
message. -/
def sm_handle_kill (input : String) (term : ℤ → KillOutcome) : Except PyErr String :=
  match pyInt input with
  | none => .error .valueError
  | some pid =>
    match term pid with
    | .terminated => .ok ("Terminated process with PID " ++ input)
    | .noSuchProcess => .ok ("Failed to terminate process with PID " ++ input)
    | .accessDenied => .ok ("Failed to terminate process with PID " ++ input)

/-- Embedding of the `k` (kill) branch of `monitor_processes` in
`another_monitor.py` (lines 156-164): `ValueError` and
`psutil.NoSuchProcess` share one handler and one message shape, while
`psutil.AccessDenied` gets its own. -/
def am_handle_kill (input : String) (term : ℤ → KillOutcome) : String :=
  match pyInt input with
  | none => "Error: Invalid PID " ++ input ++ "."
  | some pid =>
    match term pid with
    | .terminated => "Process " ++ toString pid ++ " terminated successfully."
    | .noSuchProcess => "Error: Invalid PID " ++ input ++ "."
    | .accessDenied => "Error: Access denied to kill PID " ++ input ++ "."

/-- The whole-disk bar value in `system_monitor.py` (lines 93-97):
`(total_disk_io / total_disk_capacity) * 100`, where `total_disk_io`
is the cumulative read+write byte total over all processes. -/
def sm_disk_bar_value (total_disk_io total_disk_capacity : ℕ) : ℚ :=
  ratMul (ratDiv (total_disk_io : ℚ) (total_disk_capacity : ℚ)) 100

/-- The whole-disk bar value in `another_monitor.py` (lines 69-77): the
provider's `disk_usage('/').percent` is forwarded unchanged. -/
def am_disk_bar_value (disk_percent : ℚ) : ℚ := disk_percent

/-- Modelled from the spec: the metrics provider's disk percent for the
configured volume — `disk_used_bytes / disk_total_bytes * 100` — which
`psutil.disk_usage` computes outside this repository. -/
def provider_disk_percent (used total : ℕ) : ℚ :=
  ratMul (ratDiv (used : ℚ) (total : ℚ)) 100

/-- Python slice `l[:n]` for an `int` bound `n`: a nonnegative bound
takes the first `n` elements; a negative bound `-k` stops `k` elements
before the end. -/
def pySliceTo (n : ℤ) (l : List α) : List α :=
  if 0 ≤ n then l.take n.toNat else l.take (l.length - n.natAbs)

/-- The process rows handed to the display loop in `monitor_processes`
(`system_monitor.py` lines 141-143):
`processes[:min(height - (header_start_row + 5), len(processes))]`. -/
def sm_visible (height header_start_row : ℤ) (ps : List α) : List α :=
  pySliceTo (min (height - (header_start_row + 5)) (ps.length : ℤ)) ps

/-- How many of the visible rows actually land on screen: the row for
visible entry `i` is `header_start_row + 2 + i`, and the guarded
`addstr` succeeds exactly on rows below `height` (out-of-range rows
raise `curses.error`, caught and dropped). -/
def sm_rendered_count (height header_start_row : ℤ) (ps : List α) : ℕ :=
  (List.range (sm_visible height header_start_row ps).length).countP
    (fun i => header_start_row + 2 + (i : ℤ) < height)

/-- Python `str.upper()`: uppercase every character. -/
def pyUpper (s : String) : String := String.mk (s.data.map Char.toUpper)

/-- The per-tick view state owned by the control loop. -/
structure ViewState where
  sort_by : String
  ascending : Bool
  filter_pid : Option ℤ
  filter_name : String
  last_message : String
deriving DecidableEq, Repr

/-- Embedding of the `s` (toggle-sort) branch in `system_monitor.py`
(lines 185-187): flip `sort_by` and report the new key. -/
def sm_toggle_sort (s : ViewState) : ViewState :=
  let newSort := if s.sort_by = "cpu" then "memory" else "cpu"
  { s with
    sort_by := newSort
    last_message := "Sorting by " ++ (if newSort = "cpu" then "CPU" else "Memory") }

/-- Embedding of the `s` (toggle-sort) branch in `another_monitor.py`
(lines 145-148): flip `sort_by`, reset `filter_pid` to `None`, and
report the new key in upper case. -/
def am_toggle_sort (s : ViewState) : ViewState :=
  let newSort := if s.sort_by = "cpu" then "memory" else "cpu"
  { s with
    sort_by := newSort
    filter_pid := none
    last_message := "Sorting by " ++ pyUpper newSort }

/-- Concrete process with the larger resident memory and no I/O. -/
def procA : ProcSample :=
  { pid := 1, name := "a", cpu := 0, memBytes := 2048, io := some (0, 0) }

/-- Concrete process with the smaller resident memory and 1 KiB of reads. -/
def procB : ProcSample :=
  { pid := 2, name := "b", cpu := 0, memBytes := 1024, io := some (1024, 0) }

/-- The executable multiplication agrees with rational multiplication. -/
theorem ratMul_eq (a b : ℚ) : ratMul a b = a * b := by
  rw [ratMul]
  push_cast [Rat.divInt_eq_div]
  conv_rhs => rw [← Rat.num_div_den a, ← Rat.num_div_den b]
  rw [div_mul_div_comm]

/-- The executable division agrees with rational division. -/
theorem ratDiv_eq (a b : ℚ) : ratDiv a b = a / b := by
  rw [ratDiv]
  push_cast [Rat.divInt_eq_div]
  rw [← div_mul_div_comm]
  conv_rhs => rw [← Rat.num_div_den a, ← Rat.num_div_den b]
  rw [div_eq_mul_inv (a := (a.num : ℚ) / a.den), inv_div]

/-- The executable subtraction agrees with rational subtraction. -/
theorem ratSub_eq (a b : ℚ) : ratSub a b = a - b := by
  rw [ratSub]
  push_cast [Rat.divInt_eq_div]
  have ha : ((a.den : ℚ)) ≠ 0 := by
    exact_mod_cast a.den_nz
  have hb : ((b.den : ℚ)) ≠ 0 := by
    exact_mod_cast b.den_nz
  conv_rhs => rw [← Rat.num_div_den a, ← Rat.num_div_den b]
  rw [div_sub_div _ _ ha hb]
  ring_nf

/-- Helper for the top of `get_size`'s range: once the value is at least
`1024 ^ (number of remaining units)`, every guard in the unit loop
fails and the loop is exhausted. -/
theorem get_size_aux_none (us : List String) :
    ∀ q : ℚ, (1024 : ℚ) ^ us.length ≤ q → get_size_aux us q = none := by
  induction us with
  | nil => intro q _; rfl
  | cons u rest ih =>
    intro q h
    have h1 : (1024 : ℚ) ≤ (1024 : ℚ) ^ (rest.length + 1) := by
      calc (1024 : ℚ) = 1024 ^ 1 := (pow_one _).symm
        _ ≤ 1024 ^ (rest.length + 1) := by
          apply pow_le_pow_right₀ (by norm_num)
          omega
    have hq : ¬ q < 1024 := by
      simp only [List.length_cons] at h
      push_neg
      linarith
    simp only [get_size_aux, if_neg hq]
    apply ih
    rw [ratDiv_eq, le_div_iff₀ (by norm_num : (0 : ℚ) < 1024)]
    calc (1024 : ℚ) ^ rest.length * 1024 = 1024 ^ (rest.length + 1) := (pow_succ _ _).symm
      _ ≤ q := by simpa using h

/-- Claim C1: the claim says `get_processes_info(sort_by="memory")`
orders rows by the raw resident-memory byte count in both variants.
In `system_monitor.py` the memory sort key is tuple index 4, the
formatted `disk_usage` string: on two processes where `procA` has the
larger resident memory (2048 vs 1024 bytes) but the smaller disk-I/O
string, the descending "memory" sort puts `procB` (pid 2) first —
string order, not raw-memory order — while `another_monitor.py`
correctly yields `procA` (pid 1) first by raw bytes. -/
theorem C1_memory_sort_uses_disk_string :
    (sm_get_processes_info "memory" false [procA, procB]).map (fun r => r.pid) = [2, 1] ∧
    procB.memBytes < procA.memBytes ∧
    (am_get_processes_info "memory" false [procA, procB]).map (fun r => r.pid) = [1, 2] := by
  refine ⟨by decide, by decide, by decide⟩

/-- Claim C2: the claim says `display_bar` never raises and silently
drops out-of-bounds draws. In the code its `addstr` call is not
wrapped in any exception handler: drawing at row 1000 on a 24×80
terminal raises `curses.error`, and a terminal narrower than the
20-column bar margin raises `ValueError` from the negative f-string
pad width. -/
theorem C2_display_bar_raises_out_of_bounds :
    display_bar 24 80 50 "CPU   " 1000 = .error .cursesError ∧
    display_bar 5 10 50 "CPU   " 0 = .error .valueError := by
  refine ⟨by decide, by decide⟩

/-- Claim C3: the claim says the kill dispatcher never raises and
distinguishes "invalid PID", "no such process" and "access denied"
in the status text. In `system_monitor.py` a non-numeric PID string
escapes as an uncaught `ValueError` (only `NoSuchProcess` and
`AccessDenied` are caught, and the enclosing handler catches only
`curses.error`), and the no-such-process and access-denied outcomes
produce the identical "Failed to terminate" message; in
`another_monitor.py` a nonexistent numeric PID is reported with the
"Error: Invalid PID" message the claim reserves for non-numeric
input. -/
theorem C3_kill_dispatcher_raises_and_conflates :
    sm_handle_kill "abc" (fun _ => .terminated) = .error .valueError ∧
    sm_handle_kill "1" (fun _ => .noSuchProcess) =
      sm_handle_kill "1" (fun _ => .accessDenied) ∧
    am_handle_kill "999" (fun _ => .noSuchProcess) = "Error: Invalid PID 999." := by
  refine ⟨by decide, by decide, by decide⟩

/-- Claim C4 counterexample: with disk capacity 100 bytes, 50 bytes
used, and a cumulative process I/O total of 200 bytes, the
`system_monitor.py` whole-disk bar shows 200, not the used-capacity
percentage 50, and exceeds 100. -/
theorem C4_disk_bar_counterexample :
    sm_disk_bar_value 200 100 = 200 ∧
    provider_disk_percent 50 100 = 50 ∧
    sm_disk_bar_value 200 100 ≠ provider_disk_percent 50 100 ∧
    ¬ sm_disk_bar_value 200 100 ≤ 100 := by
  refine ⟨by decide, by decide, by decide, by decide⟩

/-- Claim C4 amended: the `another_monitor.py` whole-disk bar forwards
the provider's used-capacity percentage unchanged, hence equals
`used / total * 100` and lies in `[0, 100]` whenever `used ≤ total`;
the `system_monitor.py` whole-disk bar instead equals cumulative
process I/O bytes divided by disk capacity times 100, which is not
the used percentage and is not bounded by 100. -/
theorem C4_disk_bar_amended :
    (∀ used total : ℕ, 0 < total → used ≤ total →
      am_disk_bar_value (provider_disk_percent used total) = (used : ℚ) / (total : ℚ) * 100 ∧
      0 ≤ am_disk_bar_value (provider_disk_percent used total) ∧
      am_disk_bar_value (provider_disk_percent used total) ≤ 100) ∧
    (∀ io cap : ℕ, sm_disk_bar_value io cap = (io : ℚ) / (cap : ℚ) * 100) := by
  constructor
  · intro used total htotal hle
    have heq : am_disk_bar_value (provider_disk_percent used total) =
        (used : ℚ) / (total : ℚ) * 100 := by
      rw [am_disk_bar_value, provider_disk_percent, ratMul_eq, ratDiv_eq]
    have htotal' : (0 : ℚ) < (total : ℚ) := by exact_mod_cast htotal
    have hle' : (used : ℚ) ≤ (total : ℚ) := by exact_mod_cast hle
    have hdiv1 : (used : ℚ) / (total : ℚ) ≤ 1 := (div_le_one htotal').mpr hle'
    have hdiv0 : (0 : ℚ) ≤ (used : ℚ) / (total : ℚ) := by positivity
    refine ⟨heq, ?_, ?_⟩
    · rw [heq]; positivity
    · rw [heq]; nlinarith
  · intro io cap
    rw [sm_disk_bar_value, ratMul_eq, ratDiv_eq]

/-- Claim C4 amended, instantiated: 50 of 100 bytes used gives a bar
value within bounds in the `another_monitor.py` variant, and the
`system_monitor.py` value at I/O 200 over capacity 100 is the
unbounded ratio formula. -/
theorem C4_disk_bar_amended_witness :
    am_disk_bar_value (provider_disk_percent 50 100) ≤ 100 ∧
    sm_disk_bar_value 200 100 = (200 : ℚ) / (100 : ℚ) * 100 :=
  ⟨(C4_disk_bar_amended.1 50 100 (by norm_num) (by norm_num)).2.2,
    C4_disk_bar_amended.2 200 100⟩

/-- Claim C5: the claim says the displayed row count is at most
`max 0 (height - fixed region)`, with an empty visible list on
too-small terminals. With terminal height 14, `header_start_row`
10 (one CPU core) and three processes, the bound
`min(height - (header_start_row + 5), len)` is `-1` and the Python
slice `processes[:-1]` keeps the first two processes rather than
none; both land on rows 12 and 13, inside the 14-row terminal, and
are rendered — two rows shown where the claim allows zero. -/
theorem C5_negative_slice_shows_rows :
    sm_visible 14 10 ([0, 1, 2] : List ℕ) = [0, 1] ∧
    sm_rendered_count 14 10 ([0, 1, 2] : List ℕ) = 2 ∧
    ¬ ((sm_visible 14 10 ([0, 1, 2] : List ℕ)).length ≤ (max 0 (14 - (10 + 5)) : ℤ).toNat) := by
  refine ⟨by decide, by decide, by decide⟩

/-- Claim C6 counterexample: in `another_monitor.py`, toggling the sort
key from a state with `filter_pid = 5` resets `filter_pid` to `None`,
so the toggle does not leave every other `ViewState` field unchanged. -/
theorem C6_toggle_sort_counterexample :
    (am_toggle_sort ⟨"cpu", false, some 5, "", ""⟩).filter_pid ≠
      (⟨"cpu", false, some 5, "", ""⟩ : ViewState).filter_pid := by
  decide

/-- Claim C6 amended: toggling the sort key flips `sort_by` between
"cpu" and "memory" and sets the status message to report the new key
in both variants; `system_monitor.py` leaves `ascending`,
`filter_pid` and `filter_name` unchanged, while `another_monitor.py`
leaves `ascending` and `filter_name` unchanged but additionally
resets `filter_pid` to `None`. -/
theorem C6_toggle_sort_amended : ∀ s : ViewState,
    (sm_toggle_sort s).sort_by = (if s.sort_by = "cpu" then "memory" else "cpu") ∧
    (sm_toggle_sort s).ascending = s.ascending ∧
    (sm_toggle_sort s).filter_pid = s.filter_pid ∧
    (sm_toggle_sort s).filter_name = s.filter_name ∧
    (sm_toggle_sort s).last_message =
      (if s.sort_by = "cpu" then "Sorting by Memory" else "Sorting by CPU") ∧
    (am_toggle_sort s).sort_by = (if s.sort_by = "cpu" then "memory" else "cpu") ∧
    (am_toggle_sort s).ascending = s.ascending ∧
    (am_toggle_sort s).filter_name = s.filter_name ∧
    (am_toggle_sort s).filter_pid = none ∧
    (am_toggle_sort s).last_message =
      (if s.sort_by = "cpu" then "Sorting by MEMORY" else "Sorting by CPU") := by
  intro s
  by_cases h : s.sort_by = "cpu" <;>
    (simp [sm_toggle_sort, am_toggle_sort, h]; decide)

/-- Claim C7: severity is HIGH exactly when `cpu_pct > 80`, MODERATE
exactly when `40 < cpu_pct ≤ 80`, LOW exactly when `cpu_pct ≤ 40`;
80 classifies MODERATE and 80.01 classifies HIGH; and the code's
color-pair choice (1/2/3) realizes exactly these three classes. -/
theorem C7_severity_thresholds : ∀ cpu : ℚ,
    ((severity cpu = .HIGH) ↔ 80 < cpu) ∧
    ((severity cpu = .MODERATE) ↔ (40 < cpu ∧ cpu ≤ 80)) ∧
    ((severity cpu = .LOW) ↔ cpu ≤ 40) ∧
    (colorPair cpu = 1 ↔ severity cpu = .HIGH) ∧
    (colorPair cpu = 2 ↔ severity cpu = .MODERATE) ∧
    (colorPair cpu = 3 ↔ severity cpu = .LOW) ∧
    severity 80 = .MODERATE ∧ severity (8001 / 100 : ℚ) = .HIGH := by
  intro cpu
  have h80 : severity 80 = .MODERATE := by decide
  have h8001 : severity (8001 / 100 : ℚ) = .HIGH := by
    rw [severity, if_pos (by norm_num)]
  refine ⟨?_, ?_, ?_, ?_, ?_, ?_, h80, h8001⟩ <;>
    (simp only [severity, colorPair]; split_ifs with h1 h2) <;>
    simp_all <;>
    try linarith

/-- Claim C8 counterexample: `get_size` appends the `"B"` suffix after
the selected unit letter, so `get_size(1024)` is `"1.00KB"`, not the
`"1.00K"` the claim states. -/
theorem C8_humanize_counterexample :
    get_size 1024 = some "1.00KB" ∧ get_size 1024 ≠ some "1.00K" := by
  refine ⟨by decide, by decide⟩

/-- Claim C8 amended: the humanization repeatedly divides by 1024,
selects the first unit in B, KB, MB, GB, TB, PB (unit letter always
followed by the `"B"` suffix) where the remaining value is below
1024, and formats to two decimals: `get_size(0)="0.00B"`,
`get_size(1024)="1.00KB"`, `get_size(1536)="1.50KB"`,
`get_size(1024^3)="1.00GB"`. -/
theorem C8_humanize_amended :
    get_size 0 = some "0.00B" ∧
    get_size 1024 = some "1.00KB" ∧
    get_size 1536 = some "1.50KB" ∧
    get_size ((1024 : ℚ) ^ 3) = some "1.00GB" := by
  refine ⟨by decide, by decide, by decide, by decide⟩

/-- Claim C9: when the system-wide I/O total over the process list is
0, the guarded share computation yields exactly 0 for every process,
with no division performed. -/
theorem C9_io_share_zero (ps : List ProcSample)
    (h : get_total_disk_io ps = 0) :
    ∀ p ∈ ps, sm_percent_usage (readBytes p + writeBytes p) (get_total_disk_io ps) = 0 := by
  intro p _
  rw [h]
  simp [sm_percent_usage]

/-- Claim C9 instantiated: a single process with zero I/O counters
gives a zero system-wide total and a zero share. -/
theorem C9_io_share_zero_witness :
    get_total_disk_io [procA] = 0 ∧
    sm_percent_usage (readBytes procA + writeBytes procA) (get_total_disk_io [procA]) = 0 :=
  ⟨rfl, C9_io_share_zero [procA] rfl procA (by simp)⟩

/-- Claim C10: `get_size` is partial at the top of its range — for
every value of at least `1024^6` the six-unit loop is exhausted, the
function returns `None`, and a caller embedding the result in display
text renders the literal string `"None"`. -/
theorem C10_get_size_top_partial (q : ℚ) (h : (1024 : ℚ) ^ 6 ≤ q) :
    get_size q = none ∧ strOfSize q = "None" := by
  have hnone : get_size q = none := get_size_aux_none ["", "K", "M", "G", "T", "P"] q h
  exact ⟨hnone, by simp [strOfSize, hnone]⟩

/-- Claim C10 instantiated at exactly `1024^6` bytes. -/
theorem C10_get_size_top_partial_witness :
    get_size ((1024 : ℚ) ^ 6) = none ∧ strOfSize ((1024 : ℚ) ^ 6) = "None" :=
  C10_get_size_top_partial ((1024 : ℚ) ^ 6) le_rfl

end Monitor
